import Mathlib

/-!
Verification of the energy-calculator backend (two express/mongoose variants:
`src/backend/server.js`, here suffixed `A`, and `src/unnamed/part_000`, suffixed `B`)
against its natural-language specification.

The identity/OTP handlers are byte-for-byte the same logic in both variants, so a
single model covers them.  Numbers are modelled as rationals (the source applies no
rounding), timestamps as integers (milliseconds), and the mongoose stores as
association lists.  `await` boundaries of the verify handler are made explicit by
splitting it into the `findOne` read and the check-and-`save` commit.
-/

namespace EnergyCalc

/-! ### Identity records and the OTP store (user schema of both variants) -/

structure UserRec where
  name : String
  mail : String
  otp : Option String
  otpExpires : Option Int
  deriving Repr, DecidableEq

/-- Model of `User.findOne({ mail })`. -/
def findUser (s : List UserRec) (mail : String) : Option UserRec :=
  s.find? fun u => u.mail == mail

/-- Expiry window used by the send-otp handler: `Date.now() + 10 * 60 * 1000`. -/
def otpValidityMs : Int := 10 * 60 * 1000

/-- Model of `Math.floor(1000 + Math.random() * 9000).toString()`, with the random draw
modelled by the parameter `r` (so the generated value is `1000 + r % 9000`,
exactly the range `1000..9999` the source produces). -/
def genOtp (r : Nat) : String := Nat.repr (1000 + r % 9000)

/-- Core of the `POST /api/send-otp` handler:
`User.findOneAndUpdate({ mail }, { name, mail, otp, otpExpires }, { upsert: true })`. -/
def requestOtp (s : List UserRec) (name mail otp : String) (now : Int) : List UserRec :=
  if s.any fun u => u.mail == mail then
    s.map fun u =>
      if u.mail == mail then
        { name := name, mail := mail, otp := some otp, otpExpires := some (now + otpValidityMs) }
      else u
  else
    s ++ [{ name := name, mail := mail, otp := some otp, otpExpires := some (now + otpValidityMs) }]

/-- JavaScript truthiness of `user.otp` as used in `!user.otp`:
`undefined` and the empty string are falsy. -/
def otpFalsy : Option String → Bool
  | none => true
  | some s => s == ""

/-- Model of `new Date() > user.otpExpires`: a comparison against `undefined` is `false`. -/
def otpExpired (now : Int) : Option Int → Bool
  | none => false
  | some e => decide (e < now)

inductive VerifyResult where
  | notFound
  | invalidOtp
  | success (name mail : String)
  deriving Repr, DecidableEq

/-- Model of `user.otp = undefined; user.otpExpires = undefined` before `user.save()`. -/
def clearOtp (u : UserRec) : UserRec := { u with otp := none, otpExpires := none }

/-- The part of the `POST /api/verify-otp` handler after the `await User.findOne`
resolves: the check `!user.otp || user.otp !== otp || new Date() > user.otpExpires`
followed, on success, by clearing the OTP fields and `user.save()` (a write into
whatever the store holds at that moment). -/
def verifyCommit (s : List UserRec) (snapshot : Option UserRec) (otp : String) (now : Int) :
    VerifyResult × List UserRec :=
  match snapshot with
  | none => (.notFound, s)
  | some u =>
    if otpFalsy u.otp || u.otp != some otp || otpExpired now u.otpExpires then
      (.invalidOtp, s)
    else
      (.success u.name u.mail, s.map fun v => if v.mail == u.mail then clearOtp v else v)

/-- The `POST /api/verify-otp` handler run without interleaving:
`const user = await User.findOne({ mail })` then the check-and-save. -/
def verifyOtp (s : List UserRec) (mail otp : String) (now : Int) :
    VerifyResult × List UserRec :=
  verifyCommit s (findUser s mail) otp now

/-- Wire mapping of the verify handler: `res.status(404).json({message: "User not found"})`,
`res.status(400).json({message: "Invalid or expired OTP"})`, `res.status(200).json({token, ...})`. -/
def wireResponse : VerifyResult → Nat × String
  | .notFound => (404, "User not found")
  | .invalidOtp => (400, "Invalid or expired OTP")
  | .success _ _ => (200, "")

def verifyOtpWire (s : List UserRec) (mail otp : String) (now : Int) :
    (Nat × String) × List UserRec :=
  let r := verifyOtp s mail otp now
  (wireResponse r.1, r.2)

/-! ### Appliance records (two schema variants) -/

/-- The `applianceSchema` of `src/backend/server.js`: no `unitRate`, has `possibleSavings`. -/
structure ApplianceA where
  userId : String
  applianceName : String
  rating : Rat
  hourlyUsage : Rat
  quantity : Rat
  dayFrequency : Rat
  consumptionPerDay : Rat
  consumptionPerWeek : Rat
  consumptionPerMonth : Rat
  monthlyCost : Rat
  possibleSavings : Rat
  deriving Repr, DecidableEq

/-- The `applianceSchema` of `src/unnamed/part_000`: required `unitRate`. -/
structure ApplianceB where
  userId : String
  applianceName : String
  rating : Rat
  hourlyUsage : Rat
  quantity : Rat
  dayFrequency : Rat
  unitRate : Rat
  consumptionPerDay : Rat
  consumptionPerWeek : Rat
  consumptionPerMonth : Rat
  monthlyCost : Rat
  deriving Repr, DecidableEq

/-- Source constant `4.33  // average weeks per month`. -/
def weeksPerMonth : Rat := 433 / 100

/-- Source constant in `const monthlyCost = consumptionPerMonth * 0.12; // move rate to env if needed`. -/
def defaultRateA : Rat := 12 / 100

/-- Derived-field computation of the `POST /api/appliances` handler in
`src/backend/server.js` (note the division by 1000 and the hardcoded rate). -/
def createApplianceA (userId applianceName : String)
    (rating hourlyUsage quantity dayFrequency : Rat) : ApplianceA :=
  let consumptionPerDay := rating * hourlyUsage * quantity / 1000
  let consumptionPerWeek := consumptionPerDay * dayFrequency
  let consumptionPerMonth := consumptionPerWeek * weeksPerMonth
  let monthlyCost := consumptionPerMonth * defaultRateA
  { userId := userId, applianceName := applianceName, rating := rating,
    hourlyUsage := hourlyUsage, quantity := quantity, dayFrequency := dayFrequency,
    consumptionPerDay := consumptionPerDay, consumptionPerWeek := consumptionPerWeek,
    consumptionPerMonth := consumptionPerMonth, monthlyCost := monthlyCost,
    possibleSavings := 0 }

/-- Derived-field computation of the `POST /api/appliances` handler in
`src/unnamed/part_000`. -/
def createApplianceB (userId applianceName : String)
    (rating hourlyUsage quantity dayFrequency unitRate : Rat) : ApplianceB :=
  let consumptionPerDay := rating * hourlyUsage * quantity
  let consumptionPerWeek := consumptionPerDay * dayFrequency
  let consumptionPerMonth := consumptionPerWeek * weeksPerMonth
  let monthlyCost := consumptionPerMonth * unitRate
  { userId := userId, applianceName := applianceName, rating := rating,
    hourlyUsage := hourlyUsage, quantity := quantity, dayFrequency := dayFrequency,
    unitRate := unitRate, consumptionPerDay := consumptionPerDay,
    consumptionPerWeek := consumptionPerWeek, consumptionPerMonth := consumptionPerMonth,
    monthlyCost := monthlyCost }

/-! ### Request-body values and the express-validator chains -/

/-- A JSON body field as the validators see it: missing, a non-numeric string,
or a numeric value. -/
inductive BodyField where
  | absent
  | strVal (s : String)
  | numVal (q : Rat)
  deriving Repr, DecidableEq

/-- Model of `body(f).isNumeric()`: passes exactly on numeric values (sign unchecked). -/
def BodyField.isNumericOk : BodyField → Bool
  | .numVal _ => true
  | _ => false

/-- Model of `body(f).isInt({ min })`: an integer value of at least `min` (no upper bound). -/
def BodyField.isIntMin (m : Int) : BodyField → Bool
  | .numVal q => q.den == 1 && decide (m ≤ q.num)
  | _ => false

/-- Numeric value carried by a field that passed `isNumeric`/`isInt`. -/
def BodyField.numValue : BodyField → Rat
  | .numVal q => q
  | _ => 0

/-- Model of `body("applianceName").isLength({ min: 1 })`. -/
def nameOk : Option String → Bool
  | none => false
  | some s => decide (1 ≤ s.length)

structure CreateInput where
  applianceName : Option String
  rating : BodyField
  hourlyUsage : BodyField
  quantity : BodyField
  dayFrequency : BodyField
  unitRate : BodyField
  deriving Repr, DecidableEq

/-- Validator chain of `POST /api/appliances` in `src/backend/server.js`
(`unitRate` is not validated there at all). -/
def validCreateA (i : CreateInput) : Bool :=
  nameOk i.applianceName && i.rating.isNumericOk && i.hourlyUsage.isNumericOk &&
    i.quantity.isIntMin 1 && i.dayFrequency.isIntMin 0

/-- Validator chain of `POST /api/appliances` in `src/unnamed/part_000`
(`body("unitRate").isNumeric()` is required like the others). -/
def validCreateB (i : CreateInput) : Bool :=
  nameOk i.applianceName && i.rating.isNumericOk && i.hourlyUsage.isNumericOk &&
    i.quantity.isIntMin 1 && i.dayFrequency.isIntMin 0 && i.unitRate.isNumericOk

inductive CreateResult (α : Type) where
  | validationError
  | ok (record : α)
  deriving Repr, DecidableEq

/-- Handler `POST /api/appliances` of `src/backend/server.js`: 400 on validator failure,
otherwise compute derived fields and persist owned by the caller. -/
def createHandlerA (caller : String) (i : CreateInput) : CreateResult ApplianceA :=
  if validCreateA i then
    .ok (createApplianceA caller (i.applianceName.getD "") i.rating.numValue
      i.hourlyUsage.numValue i.quantity.numValue i.dayFrequency.numValue)
  else .validationError

/-- Handler `POST /api/appliances` of `src/unnamed/part_000`. -/
def createHandlerB (caller : String) (i : CreateInput) : CreateResult ApplianceB :=
  if validCreateB i then
    .ok (createApplianceB caller (i.applianceName.getD "") i.rating.numValue
      i.hourlyUsage.numValue i.quantity.numValue i.dayFrequency.numValue
      i.unitRate.numValue)
  else .validationError

/-! ### Update and delete -/

/-- The relevant paths a `PUT /api/appliances/:id` request body can carry
(`req.body` is spread into `merged` and `Object.assign`ed onto the document,
so a supplied `userId` or `possibleSavings` lands on the record too; supplied
derived fields are overwritten by the recomputation, the last `Object.assign`
argument). -/
structure UpdateBody where
  applianceName : Option String := none
  rating : Option Rat := none
  hourlyUsage : Option Rat := none
  quantity : Option Rat := none
  dayFrequency : Option Rat := none
  unitRate : Option Rat := none
  userId : Option String := none
  possibleSavings : Option Rat := none
  deriving Repr, DecidableEq

/-- Merge-and-recompute of the PUT handler in `src/backend/server.js`:
`merged = { ...appliance.toObject(), ...updates }`, recompute with `/1000` and
the hardcoded `0.12`, then `Object.assign(appliance, updates, { derived... })`. -/
def updateApplianceA (a : ApplianceA) (b : UpdateBody) : ApplianceA :=
  let rating := b.rating.getD a.rating
  let hourlyUsage := b.hourlyUsage.getD a.hourlyUsage
  let quantity := b.quantity.getD a.quantity
  let dayFrequency := b.dayFrequency.getD a.dayFrequency
  let consumptionPerDay := rating * hourlyUsage * quantity / 1000
  let consumptionPerWeek := consumptionPerDay * dayFrequency
  let consumptionPerMonth := consumptionPerWeek * weeksPerMonth
  let monthlyCost := consumptionPerMonth * defaultRateA
  { userId := b.userId.getD a.userId,
    applianceName := b.applianceName.getD a.applianceName,
    rating := rating, hourlyUsage := hourlyUsage, quantity := quantity,
    dayFrequency := dayFrequency, consumptionPerDay := consumptionPerDay,
    consumptionPerWeek := consumptionPerWeek, consumptionPerMonth := consumptionPerMonth,
    monthlyCost := monthlyCost,
    possibleSavings := b.possibleSavings.getD a.possibleSavings }

/-- Merge-and-recompute of the PUT handler in `src/unnamed/part_000` (uses
`merged.unitRate`). -/
def updateApplianceB (a : ApplianceB) (b : UpdateBody) : ApplianceB :=
  let rating := b.rating.getD a.rating
  let hourlyUsage := b.hourlyUsage.getD a.hourlyUsage
  let quantity := b.quantity.getD a.quantity
  let dayFrequency := b.dayFrequency.getD a.dayFrequency
  let unitRate := b.unitRate.getD a.unitRate
  let consumptionPerDay := rating * hourlyUsage * quantity
  let consumptionPerWeek := consumptionPerDay * dayFrequency
  let consumptionPerMonth := consumptionPerWeek * weeksPerMonth
  let monthlyCost := consumptionPerMonth * unitRate
  { userId := b.userId.getD a.userId,
    applianceName := b.applianceName.getD a.applianceName,
    rating := rating, hourlyUsage := hourlyUsage, quantity := quantity,
    dayFrequency := dayFrequency, unitRate := unitRate,
    consumptionPerDay := consumptionPerDay, consumptionPerWeek := consumptionPerWeek,
    consumptionPerMonth := consumptionPerMonth, monthlyCost := monthlyCost }

/-- Model of `Appliance.findById(id)` over an id-keyed store. -/
def findApp {α : Type} (s : List (Nat × α)) (id : Nat) : Option α :=
  (s.find? fun p => p.1 == id).map fun p => p.2

/-- Model of `appliance.save()`: write back the document with the given id. -/
def writeApp {α : Type} (s : List (Nat × α)) (id : Nat) (r : α) : List (Nat × α) :=
  s.map fun p => if p.1 == id then (id, r) else p

/-- Model of `Appliance.findByIdAndDelete(id)`. -/
def eraseApp {α : Type} (s : List (Nat × α)) (id : Nat) : List (Nat × α) :=
  s.filter fun p => !(p.1 == id)

inductive UpdateResult (α : Type) where
  | notFound
  | forbidden
  | ok (val : α)
  deriving Repr, DecidableEq

/-- HTTP status each outcome is sent with (404, 403, 200). -/
def UpdateResult.statusCode {α : Type} : UpdateResult α → Nat
  | .notFound => 404
  | .forbidden => 403
  | .ok _ => 200

/-- Handler `PUT /api/appliances/:id` of `src/backend/server.js`: fetch, 404 when absent,
403 when `appliance.userId.toString() !== req.user.userId`, else merge,
recompute, save, return the updated record. -/
def putApplianceA (s : List (Nat × ApplianceA)) (caller : String) (id : Nat) (b : UpdateBody) :
    UpdateResult ApplianceA × List (Nat × ApplianceA) :=
  match findApp s id with
  | none => (.notFound, s)
  | some a =>
    if a.userId != caller then (.forbidden, s)
    else
      let r := updateApplianceA a b
      (.ok r, writeApp s id r)

/-- Handler `PUT /api/appliances/:id` of `src/unnamed/part_000`. -/
def putApplianceB (s : List (Nat × ApplianceB)) (caller : String) (id : Nat) (b : UpdateBody) :
    UpdateResult ApplianceB × List (Nat × ApplianceB) :=
  match findApp s id with
  | none => (.notFound, s)
  | some a =>
    if a.userId != caller then (.forbidden, s)
    else
      let r := updateApplianceB a b
      (.ok r, writeApp s id r)

/-- Handler `DELETE /api/appliances/:id` of `src/backend/server.js`: same fetch and
checks, then delete and return a confirmation message. -/
def deleteApplianceA (s : List (Nat × ApplianceA)) (caller : String) (id : Nat) :
    UpdateResult String × List (Nat × ApplianceA) :=
  match findApp s id with
  | none => (.notFound, s)
  | some a =>
    if a.userId != caller then (.forbidden, s)
    else (.ok "Appliance deleted successfully", eraseApp s id)

/-- Handler `DELETE /api/appliances/:id` of `src/unnamed/part_000`. -/
def deleteApplianceB (s : List (Nat × ApplianceB)) (caller : String) (id : Nat) :
    UpdateResult String × List (Nat × ApplianceB) :=
  match findApp s id with
  | none => (.notFound, s)
  | some a =>
    if a.userId != caller then (.forbidden, s)
    else (.ok "Appliance deleted successfully", eraseApp s id)

/-! ### Concrete fixtures for witnesses and counterexamples -/

def aliceRec : UserRec :=
  { name := "Alice", mail := "a@x.com", otp := some "1234", otpExpires := some 600000 }

def raceStore : List UserRec := [aliceRec]

def bobRec : UserRec :=
  { name := "Bob", mail := "b@x.com", otp := some "1234", otpExpires := some 600000 }

def regStore : List UserRec := [bobRec]

def fanInput : CreateInput :=
  { applianceName := some "Fan", rating := .numVal 5, hourlyUsage := .numVal 8,
    quantity := .numVal 2, dayFrequency := .numVal 7, unitRate := .numVal 8 }

/-- Violates the claimed constraints (negative rating, day frequency 8 out of
`[0,7]`, absent unit rate) yet passes the server.js validator chain. -/
def badInput : CreateInput :=
  { applianceName := some "Fan", rating := .numVal (-5), hourlyUsage := .numVal 8,
    quantity := .numVal 2, dayFrequency := .numVal 8, unitRate := .absent }

/-- Negative rating and unit rate, day frequency 8: violates the claimed
constraints yet passes the part_000 validator chain. -/
def badInputB : CreateInput :=
  { applianceName := some "Fan", rating := .numVal (-5), hourlyUsage := .numVal 8,
    quantity := .numVal 2, dayFrequency := .numVal 8, unitRate := .numVal (-3) }

def fanB : ApplianceB := createApplianceB "u1" "Fan" 5 8 2 7 8

def fanA : ApplianceA := createApplianceA "u1" "Fan" 5 8 2 7

def storeB1 : List (Nat × ApplianceB) := [(1, fanB)]

def storeA1 : List (Nat × ApplianceA) := [(1, fanA)]

def singleFieldBody : UpdateBody := { rating := some 9 }

def reassignBody : UpdateBody := { userId := some "u2" }

def emptyBody : UpdateBody := {}

/-! ### Helper lemmas -/

/-- The digit list produced with positive fuel is nonempty. -/
theorem toDigitsCore_len_pos (b n f : Nat) :
    0 < (Nat.toDigitsCore b (f + 1) n []).length := by
  simp only [Nat.toDigitsCore]
  by_cases h : n / b = 0
  · simp [h]
  · simp only [h, if_false]
    rw [Nat.toDigitsCore_lens_eq]
    omega

/-- Decimal rendering of a natural number is never the empty string. -/
theorem repr_ne_empty (n : Nat) : Nat.repr n ≠ "" := by
  intro hc
  have hlen : (Nat.toDigitsCore 10 (n + 1) n []).length = 0 := by
    have h2 := congrArg (fun s => s.data.length) hc
    simpa [Nat.repr, Nat.toDigits, List.asString] using h2
  have h3 := toDigitsCore_len_pos 10 n n
  omega

/-- A generated OTP is a nonempty string (it renders a number in `1000..9999`). -/
theorem genOtp_ne_empty (r : Nat) : genOtp r ≠ "" :=
  repr_ne_empty _

/-- Looking up a mail after rewriting, in place, every record of that mail. -/
theorem findUser_map_set (s : List UserRec) (mail : String) (f : UserRec → UserRec)
    (hf : ∀ u, u.mail = mail → (f u).mail = mail) :
    findUser (s.map fun u => if u.mail == mail then f u else u) mail
      = (findUser s mail).map f := by
  unfold findUser
  rw [List.find?_map]
  have hp : ((fun u => u.mail == mail) ∘ fun u => if u.mail == mail then f u else u)
      = fun u => u.mail == mail := by
    funext u
    by_cases h : u.mail = mail
    · simp [Function.comp, h, hf u h]
    · simp [Function.comp, h]
  rw [hp]
  cases hfind : s.find? fun u => u.mail == mail with
  | none => rfl
  | some u =>
    have hm : u.mail = mail := by
      have hu := List.find?_some hfind
      simpa using hu
    simp [hm]

/-- After the send-otp upsert, the looked-up identity record is exactly the
name/OTP/expiry just written. -/
theorem findUser_requestOtp (s : List UserRec) (name mail code : String) (t : Int) :
    findUser (requestOtp s name mail code t) mail
      = some { name := name, mail := mail, otp := some code,
               otpExpires := some (t + otpValidityMs) } := by
  unfold requestOtp
  by_cases h : (s.any fun u => u.mail == mail) = true
  · rw [if_pos h, findUser_map_set s mail _ (fun u _ => rfl)]
    obtain ⟨u, hu, hp⟩ := List.any_eq_true.mp h
    have hsome : (findUser s mail).isSome := List.find?_isSome.mpr ⟨u, hu, hp⟩
    obtain ⟨v, hv⟩ := Option.isSome_iff_exists.mp hsome
    rw [hv]
    rfl
  · rw [if_neg h]
    have hnone : findUser s mail = none := by
      unfold findUser
      rw [List.find?_eq_none]
      intro x hx hp
      exact h (List.any_eq_true.mpr ⟨x, hx, hp⟩)
    unfold findUser at hnone ⊢
    rw [List.find?_append, hnone]
    simp

/-- Unfolding of the verify handler when the lookup misses. -/
theorem verifyOtp_missing (s : List UserRec) (mail otp : String) (now : Int)
    (hfind : findUser s mail = none) :
    verifyOtp s mail otp now = (.notFound, s) := by
  unfold verifyOtp
  rw [hfind]
  rfl

/-- Unfolding of the verify handler when the lookup hits record `u`. -/
theorem verifyOtp_found (s : List UserRec) (mail otp : String) (now : Int) (u : UserRec)
    (hfind : findUser s mail = some u) :
    verifyOtp s mail otp now =
      if otpFalsy u.otp || u.otp != some otp || otpExpired now u.otpExpires then
        (.invalidOtp, s)
      else
        (.success u.name u.mail,
         s.map fun v => if v.mail == u.mail then clearOtp v else v) := by
  unfold verifyOtp
  rw [hfind]
  rfl

/-! ### OTP lifecycle claims -/

/-- Claim C4: after `RequestOtp`, the first `VerifyOtp` with the generated code
inside the expiry window succeeds, and any later `VerifyOtp` with the same code
against the resulting store fails with `InvalidOtp`: success clears the stored
OTP and expiry, so the code can never succeed twice. -/
theorem otp_single_use (s : List UserRec) (name mail : String) (r : Nat) (t0 t1 t2 : Int)
    (hwin : t1 ≤ t0 + otpValidityMs) :
    (verifyOtp (requestOtp s name mail (genOtp r) t0) mail (genOtp r) t1).1
        = .success name mail
    ∧ (verifyOtp (verifyOtp (requestOtp s name mail (genOtp r) t0) mail (genOtp r) t1).2
        mail (genOtp r) t2).1 = .invalidOtp := by
  have hne : genOtp r ≠ "" := genOtp_ne_empty r
  have hfind := findUser_requestOtp s name mail (genOtp r) t0
  have hfal : otpFalsy (some (genOtp r)) = false := by simp [otpFalsy, hne]
  have hexp : otpExpired t1 (some (t0 + otpValidityMs)) = false := by
    simp only [otpExpired, decide_eq_false_iff_not, not_lt]
    exact hwin
  have h1 : verifyOtp (requestOtp s name mail (genOtp r) t0) mail (genOtp r) t1
      = (.success name mail,
         (requestOtp s name mail (genOtp r) t0).map
           fun v => if v.mail == mail then clearOtp v else v) := by
    unfold verifyOtp
    rw [hfind]
    unfold verifyCommit
    simp [hfal, hexp]
  have hfind2 : findUser ((requestOtp s name mail (genOtp r) t0).map
      fun v => if v.mail == mail then clearOtp v else v) mail
      = some (clearOtp { name := name, mail := mail, otp := some (genOtp r),
                         otpExpires := some (t0 + otpValidityMs) }) := by
    rw [findUser_map_set _ mail clearOtp (fun u hu => hu), hfind]
    rfl
  refine ⟨by rw [h1], ?_⟩
  rw [h1]
  unfold verifyOtp
  rw [hfind2]
  unfold verifyCommit
  simp [clearOtp, otpFalsy]

/-- Witness for C4: a fresh store, with the request and both verifications at
time zero. -/
theorem otp_single_use_witness :
    (0 : Int) ≤ 0 + otpValidityMs
    ∧ ((verifyOtp (requestOtp [] "Alice" "a@x.com" (genOtp 0) 0) "a@x.com" (genOtp 0) 0).1
        = .success "Alice" "a@x.com"
      ∧ (verifyOtp
          (verifyOtp (requestOtp [] "Alice" "a@x.com" (genOtp 0) 0) "a@x.com" (genOtp 0) 0).2
          "a@x.com" (genOtp 0) 0).1 = .invalidOtp) :=
  ⟨by decide, otp_single_use [] "Alice" "a@x.com" 0 0 0 0 (by decide)⟩

/-- Claim C5: the check-and-clear in the verify handler is read-then-write, not
atomic: two interleaved verifications that both read the store before either
writes both pass the check against their stale snapshot and both return
success with the same still-valid OTP. -/
theorem verify_race_both_succeed :
    (verifyCommit raceStore (findUser raceStore "a@x.com") "1234" 0).1
        = .success "Alice" "a@x.com"
    ∧ (verifyCommit (verifyCommit raceStore (findUser raceStore "a@x.com") "1234" 0).2
        (findUser raceStore "a@x.com") "1234" 0).1 = .success "Alice" "a@x.com" := by
  constructor <;> rfl

/-- Claim C6: `VerifyOtp` answers `NotFound` exactly when no identity record
matches the mail; for a matching record (whose stored OTP, when set, is a
nonempty string, as every generated OTP is) it answers `InvalidOtp` exactly
when no OTP is set, the candidate differs from the stored OTP, or the current
time strictly exceeds the stored expiry; at the expiry instant itself a correct
code still succeeds. -/
theorem verify_error_conditions (s : List UserRec) (mail otp : String) (now : Int)
    (hwf : ∀ u, findUser s mail = some u → u.otp ≠ some "") :
    ((verifyOtp s mail otp now).1 = .notFound ↔ findUser s mail = none)
    ∧ (∀ u, findUser s mail = some u →
        ((verifyOtp s mail otp now).1 = .invalidOtp ↔
          (u.otp = none ∨ u.otp ≠ some otp ∨ ∃ e, u.otpExpires = some e ∧ e < now)))
    ∧ (∀ u, findUser s mail = some u → u.otp = some otp → u.otpExpires = some now →
        (verifyOtp s mail otp now).1 = .success u.name u.mail) := by
  cases hfind : findUser s mail with
  | none =>
    refine ⟨by simp [verifyOtp, verifyCommit, hfind], ?_, ?_⟩
    · intro u hu
      simp at hu
    · intro u hu
      simp at hu
  | some u =>
    have hrw := verifyOtp_found s mail otp now u hfind
    have hcond_iff : (otpFalsy u.otp || u.otp != some otp
        || otpExpired now u.otpExpires) = true ↔
        (u.otp = none ∨ u.otp ≠ some otp ∨ ∃ e, u.otpExpires = some e ∧ e < now) := by
      have hne := hwf u hfind
      cases ho : u.otp with
      | none => simp [otpFalsy]
      | some x =>
        have hx : (x == "") = false := by
          rw [beq_eq_false_iff_ne]
          intro hx0
          rw [ho, hx0] at hne
          exact hne rfl
        cases he : u.otpExpires with
        | none => simp [otpFalsy, otpExpired, hx]
        | some e => simp [otpFalsy, otpExpired, hx]
    refine ⟨?_, ?_, ?_⟩
    · rw [hrw]
      by_cases hcond : (otpFalsy u.otp || u.otp != some otp
          || otpExpired now u.otpExpires) = true
      · rw [if_pos hcond]
        simp
      · rw [if_neg hcond]
        simp
    · intro v hv
      injection hv with hvu
      subst hvu
      rw [hrw]
      by_cases hcond : (otpFalsy u.otp || u.otp != some otp
          || otpExpired now u.otpExpires) = true
      · rw [if_pos hcond]
        exact iff_of_true rfl (hcond_iff.mp hcond)
      · rw [if_neg hcond]
        exact iff_of_false (by simp) fun h => hcond (hcond_iff.mpr h)
    · intro v hv hotp hexp
      injection hv with hvu
      subst hvu
      have hne := hwf u hfind
      have hx : (otp == "") = false := by
        rw [beq_eq_false_iff_ne]
        intro hx0
        rw [hx0] at hotp
        exact hne hotp
      have hcond : (otpFalsy u.otp || u.otp != some otp
          || otpExpired now u.otpExpires) = false := by
        simp [hotp, hexp, otpFalsy, otpExpired, hx]
      rw [hrw, hcond]
      simp

/-- Witness for C6: at the exact expiry instant the correct code still succeeds
on a concrete store. -/
theorem verify_error_conditions_witness :
    (verifyOtp regStore "b@x.com" "1234" 600000).1 = .success "Bob" "b@x.com" := by
  have hwf : ∀ u, findUser regStore "b@x.com" = some u → u.otp ≠ some "" := by
    intro u hu
    have hb : findUser regStore "b@x.com" = some bobRec := rfl
    rw [hb] at hu
    cases hu
    decide
  exact (verify_error_conditions regStore "b@x.com" "1234" 600000 hwf).2.2 bobRec rfl rfl rfl

/-- Claim C9 (counterexample): the wire responses for an unknown mail and for a
wrong code on a registered mail differ in both status and message, so an
observer can tell which mails are registered. -/
theorem verify_wire_distinguishable :
    (verifyOtpWire [] "a@x.com" "1234" 0).1 = (404, "User not found")
    ∧ (verifyOtpWire regStore "b@x.com" "5678" 0).1 = (400, "Invalid or expired OTP")
    ∧ (verifyOtpWire [] "a@x.com" "1234" 0).1
        ≠ (verifyOtpWire regStore "b@x.com" "5678" 0).1 := by
  refine ⟨rfl, rfl, ?_⟩
  decide

/-- Claim C9 (amended): an unknown mail is answered 404 "User not found" and a
wrong or expired code on an existing record 400 "Invalid or expired OTP"; the
two wire responses are distinct, so registration status is observable. -/
theorem verify_wire_responses (s : List UserRec) (mail otp : String) (now : Int) :
    (findUser s mail = none →
      (verifyOtpWire s mail otp now).1 = (404, "User not found"))
    ∧ (∀ u, findUser s mail = some u →
        (otpFalsy u.otp || u.otp != some otp || otpExpired now u.otpExpires) = true →
        (verifyOtpWire s mail otp now).1 = (400, "Invalid or expired OTP"))
    ∧ wireResponse .notFound ≠ wireResponse .invalidOtp := by
  refine ⟨?_, ?_, by decide⟩
  · intro h
    simp [verifyOtpWire, verifyOtp, verifyCommit, h, wireResponse]
  · intro u hu hcond
    simp [verifyOtpWire, verifyOtp, verifyCommit, hu, hcond, wireResponse]

/-- Witness for C9 (amended): both failure shapes realised on concrete stores. -/
theorem verify_wire_responses_witness :
    (verifyOtpWire [] "a@x.com" "1234" 0).1 = (404, "User not found")
    ∧ (verifyOtpWire regStore "b@x.com" "5678" 0).1 = (400, "Invalid or expired OTP") :=
  ⟨(verify_wire_responses [] "a@x.com" "1234" 0).1 rfl,
   (verify_wire_responses regStore "b@x.com" "5678" 0).2.1 bobRec rfl (by decide)⟩

/-- Claim C10: whenever `VerifyOtp` fails (unknown mail, no OTP set, wrong or
expired code) the store is returned unchanged: the stored OTP and expiry are
not cleared by a failed attempt. -/
theorem verify_failure_preserves_store (s : List UserRec) (mail otp : String) (now : Int)
    (h : (verifyOtp s mail otp now).1 = .notFound
      ∨ (verifyOtp s mail otp now).1 = .invalidOtp) :
    (verifyOtp s mail otp now).2 = s := by
  cases hfind : findUser s mail with
  | none => simp [verifyOtp, verifyCommit, hfind]
  | some u =>
    by_cases hcond : (otpFalsy u.otp || u.otp != some otp
        || otpExpired now u.otpExpires) = true
    · simp [verifyOtp, verifyCommit, hfind, hcond]
    · simp [verifyOtp, verifyCommit, hfind, hcond] at h

/-- Witness for C10: a wrong guess against a concrete store leaves it intact. -/
theorem verify_failure_preserves_store_witness :
    (verifyOtp regStore "b@x.com" "9999" 0).2 = regStore :=
  verify_failure_preserves_store regStore "b@x.com" "9999" 0 (Or.inr (by decide))

/-! ### Appliance-ledger helper lemmas -/

/-- Looking up an id after writing a record back under that id. -/
theorem findApp_writeApp {α : Type} (s : List (Nat × α)) (id : Nat) (r : α) :
    findApp (writeApp s id r) id = (findApp s id).map fun _ => r := by
  unfold findApp writeApp
  rw [List.find?_map]
  have hp : ((fun p : Nat × α => p.1 == id) ∘ fun p => if p.1 == id then (id, r) else p)
      = fun p : Nat × α => p.1 == id := by
    funext p
    by_cases h : p.1 = id
    · simp [Function.comp, h]
    · simp [Function.comp, h]
  rw [hp]
  cases hfind : s.find? fun p : Nat × α => p.1 == id with
  | none => rfl
  | some p =>
    have hm : p.1 = id := by
      have hq := List.find?_some hfind
      simpa using hq
    simp [hm]

/-- The `isLength({ min: 1 })` check passes exactly on a present nonempty string. -/
theorem nameOk_iff (o : Option String) : nameOk o = true ↔ ∃ s, o = some s ∧ s ≠ "" := by
  cases o with
  | none => simp [nameOk]
  | some s =>
    simp only [nameOk, decide_eq_true_eq, Option.some.injEq]
    constructor
    · intro h
      refine ⟨s, rfl, ?_⟩
      intro h0
      subst h0
      simp at h
    · rintro ⟨t, rfl, ht⟩
      rcases s with ⟨data⟩
      cases data with
      | nil => simp at ht
      | cons c cs => simp [String.length]

/-- The `isNumeric()` check passes exactly on a numeric value of either sign. -/
theorem isNumericOk_iff (f : BodyField) : f.isNumericOk = true ↔ ∃ q, f = .numVal q := by
  cases f <;> simp [BodyField.isNumericOk]

/-- The `isInt({ min })` check passes exactly on an integer value at least `min`,
with no upper bound. -/
theorem isIntMin_iff (m : Int) (f : BodyField) :
    f.isIntMin m = true ↔ ∃ n : Int, m ≤ n ∧ f = .numVal (n : Rat) := by
  cases f with
  | absent => simp [BodyField.isIntMin]
  | strVal s => simp [BodyField.isIntMin]
  | numVal q =>
    simp only [BodyField.isIntMin, Bool.and_eq_true, beq_iff_eq, decide_eq_true_eq,
      BodyField.numVal.injEq]
    constructor
    · rintro ⟨hden, hm⟩
      refine ⟨q.num, hm, ((Rat.den_eq_one_iff q).mp hden).symm⟩
    · rintro ⟨n, hn, rfl⟩
      refine ⟨Rat.den_intCast n, ?_⟩
      rw [Rat.num_intCast]
      exact hn

/-! ### Appliance-ledger claims -/

/-- Claim C1 (counterexample): the server.js create handler accepts the fan
input but stores `consumptionPerDay = rating * hourlyUsage * quantity / 1000`,
not the claimed `rating * hourlyUsage * quantity`. -/
theorem create_formula_mismatch_serverjs :
    createHandlerA "u1" fanInput = .ok fanA
    ∧ fanA.consumptionPerDay ≠ fanA.rating * fanA.hourlyUsage * fanA.quantity := by
  constructor
  · rfl
  · norm_num [fanA, createApplianceA]

/-- Claim C1 (amended): every record accepted by the part_000 create handler
satisfies the spec formulas exactly with the per-record unit rate; every record
accepted by the server.js create handler satisfies them with
`consumptionPerDay` divided by 1000 and the configured default rate 0.12. -/
theorem create_derived_fields (caller : String) (i : CreateInput) :
    (∀ a, createHandlerB caller i = .ok a →
      a.consumptionPerDay = a.rating * a.hourlyUsage * a.quantity
      ∧ a.consumptionPerWeek = a.consumptionPerDay * a.dayFrequency
      ∧ a.consumptionPerMonth = a.consumptionPerWeek * weeksPerMonth
      ∧ a.monthlyCost = a.consumptionPerMonth * a.unitRate)
    ∧ (∀ a, createHandlerA caller i = .ok a →
      a.consumptionPerDay = a.rating * a.hourlyUsage * a.quantity / 1000
      ∧ a.consumptionPerWeek = a.consumptionPerDay * a.dayFrequency
      ∧ a.consumptionPerMonth = a.consumptionPerWeek * weeksPerMonth
      ∧ a.monthlyCost = a.consumptionPerMonth * defaultRateA) := by
  constructor
  · intro a ha
    unfold createHandlerB at ha
    by_cases hv : validCreateB i = true
    · rw [if_pos hv] at ha
      injection ha with ha2
      subst ha2
      exact ⟨rfl, rfl, rfl, rfl⟩
    · rw [if_neg hv] at ha
      exact absurd ha (by simp)
  · intro a ha
    unfold createHandlerA at ha
    by_cases hv : validCreateA i = true
    · rw [if_pos hv] at ha
      injection ha with ha2
      subst ha2
      exact ⟨rfl, rfl, rfl, rfl⟩
    · rw [if_neg hv] at ha
      exact absurd ha (by simp)

/-- Witness for C1 (amended): the fan record accepted by the part_000 handler. -/
theorem create_derived_fields_witness :
    fanB.consumptionPerDay = fanB.rating * fanB.hourlyUsage * fanB.quantity
    ∧ fanB.consumptionPerWeek = fanB.consumptionPerDay * fanB.dayFrequency
    ∧ fanB.consumptionPerMonth = fanB.consumptionPerWeek * weeksPerMonth
    ∧ fanB.monthlyCost = fanB.consumptionPerMonth * fanB.unitRate :=
  (create_derived_fields "u1" fanInput).1 fanB rfl

/-- Claim C2: an owner update with any subset of input fields supplied yields a
record (both returned and persisted) whose input fields are the merged values
and whose four derived fields are recomputed by that variant's create formulas
over the merged values. -/
theorem update_recomputes_derived (caller : String) (id : Nat) (b : UpdateBody) :
    (∀ (s : List (Nat × ApplianceB)) a, findApp s id = some a → a.userId = caller →
      ∃ r, putApplianceB s caller id b = (.ok r, writeApp s id r)
        ∧ r.rating = b.rating.getD a.rating
        ∧ r.hourlyUsage = b.hourlyUsage.getD a.hourlyUsage
        ∧ r.quantity = b.quantity.getD a.quantity
        ∧ r.dayFrequency = b.dayFrequency.getD a.dayFrequency
        ∧ r.unitRate = b.unitRate.getD a.unitRate
        ∧ r.consumptionPerDay = r.rating * r.hourlyUsage * r.quantity
        ∧ r.consumptionPerWeek = r.consumptionPerDay * r.dayFrequency
        ∧ r.consumptionPerMonth = r.consumptionPerWeek * weeksPerMonth
        ∧ r.monthlyCost = r.consumptionPerMonth * r.unitRate
        ∧ findApp (putApplianceB s caller id b).2 id = some r)
    ∧ (∀ (s : List (Nat × ApplianceA)) a, findApp s id = some a → a.userId = caller →
      ∃ r, putApplianceA s caller id b = (.ok r, writeApp s id r)
        ∧ r.rating = b.rating.getD a.rating
        ∧ r.hourlyUsage = b.hourlyUsage.getD a.hourlyUsage
        ∧ r.quantity = b.quantity.getD a.quantity
        ∧ r.dayFrequency = b.dayFrequency.getD a.dayFrequency
        ∧ r.consumptionPerDay = r.rating * r.hourlyUsage * r.quantity / 1000
        ∧ r.consumptionPerWeek = r.consumptionPerDay * r.dayFrequency
        ∧ r.consumptionPerMonth = r.consumptionPerWeek * weeksPerMonth
        ∧ r.monthlyCost = r.consumptionPerMonth * defaultRateA
        ∧ findApp (putApplianceA s caller id b).2 id = some r) := by
  constructor
  · intro s a hfind hown
    have hne : (a.userId != caller) = false := by simp [hown]
    refine ⟨updateApplianceB a b, ?_, rfl, rfl, rfl, rfl, rfl, rfl, rfl, rfl, rfl, ?_⟩
    · simp [putApplianceB, hfind, hne]
    · simp [putApplianceB, hfind, hne, findApp_writeApp]
  · intro s a hfind hown
    have hne : (a.userId != caller) = false := by simp [hown]
    refine ⟨updateApplianceA a b, ?_, rfl, rfl, rfl, rfl, rfl, rfl, rfl, rfl, ?_⟩
    · simp [putApplianceA, hfind, hne]
    · simp [putApplianceA, hfind, hne, findApp_writeApp]

/-- Witness for C2: updating only the rating of the stored fan record. -/
theorem update_recomputes_derived_witness :
    ∃ r, putApplianceB storeB1 "u1" 1 singleFieldBody = (.ok r, writeApp storeB1 1 r)
      ∧ r.rating = singleFieldBody.rating.getD fanB.rating
      ∧ r.hourlyUsage = singleFieldBody.hourlyUsage.getD fanB.hourlyUsage
      ∧ r.quantity = singleFieldBody.quantity.getD fanB.quantity
      ∧ r.dayFrequency = singleFieldBody.dayFrequency.getD fanB.dayFrequency
      ∧ r.unitRate = singleFieldBody.unitRate.getD fanB.unitRate
      ∧ r.consumptionPerDay = r.rating * r.hourlyUsage * r.quantity
      ∧ r.consumptionPerWeek = r.consumptionPerDay * r.dayFrequency
      ∧ r.consumptionPerMonth = r.consumptionPerWeek * weeksPerMonth
      ∧ r.monthlyCost = r.consumptionPerMonth * r.unitRate
      ∧ findApp (putApplianceB storeB1 "u1" 1 singleFieldBody).2 1 = some r :=
  (update_recomputes_derived "u1" 1 singleFieldBody).1 storeB1 fanB rfl rfl

/-- Claim C3 (counterexample): the validators accept a negative rating, a day
frequency of 8, and (in part_000) a negative unit rate, while an absent unit
rate is rejected there — all contrary to the claimed constraints. -/
theorem create_validation_gap :
    validCreateA badInput = true
    ∧ validCreateB badInputB = true
    ∧ validCreateB badInput = false
    ∧ createHandlerA "u1" badInput ≠ .validationError := by
  refine ⟨rfl, rfl, rfl, ?_⟩
  intro h
  rw [show createHandlerA "u1" badInput
      = .ok (createApplianceA "u1" "Fan" (-5) 8 2 8) from rfl] at h
  exact CreateResult.noConfusion h

/-- Claim C3 (amended): create validation passes exactly when the name is a
present nonempty string, rating and hourly usage are numeric (any sign),
quantity is an integer at least 1, day frequency an integer at least 0 (no
upper bound of 7), and — in part_000 only — a numeric (any sign) unit rate is
present, its absence being a validation failure; server.js never checks the
unit rate. -/
theorem create_validation_exact (i : CreateInput) :
    (validCreateB i = true ↔
      ((∃ s, i.applianceName = some s ∧ s ≠ "")
        ∧ (∃ q, i.rating = .numVal q)
        ∧ (∃ q, i.hourlyUsage = .numVal q)
        ∧ (∃ n : Int, 1 ≤ n ∧ i.quantity = .numVal (n : Rat))
        ∧ (∃ n : Int, 0 ≤ n ∧ i.dayFrequency = .numVal (n : Rat))
        ∧ (∃ q, i.unitRate = .numVal q)))
    ∧ (validCreateA i = true ↔
      ((∃ s, i.applianceName = some s ∧ s ≠ "")
        ∧ (∃ q, i.rating = .numVal q)
        ∧ (∃ q, i.hourlyUsage = .numVal q)
        ∧ (∃ n : Int, 1 ≤ n ∧ i.quantity = .numVal (n : Rat))
        ∧ (∃ n : Int, 0 ≤ n ∧ i.dayFrequency = .numVal (n : Rat)))) := by
  constructor
  · simp only [validCreateB, Bool.and_eq_true, nameOk_iff, isNumericOk_iff, isIntMin_iff,
      and_assoc]
  · simp only [validCreateA, Bool.and_eq_true, nameOk_iff, isNumericOk_iff, isIntMin_iff,
      and_assoc]

/-- Claim C7: update and delete, in both variants, answer `NotFound` (404) when
no record has the id, `Forbidden` (403, a distinct status) when the record's
owner differs from the caller, and in both failure cases leave the store
untouched (no field is applied before the checks pass). -/
theorem crud_existence_ownership (caller : String) (id : Nat) (b : UpdateBody) :
    (∀ s : List (Nat × ApplianceB),
      (findApp s id = none →
        putApplianceB s caller id b = (.notFound, s)
        ∧ deleteApplianceB s caller id = (.notFound, s))
      ∧ (∀ a, findApp s id = some a → a.userId ≠ caller →
        putApplianceB s caller id b = (.forbidden, s)
        ∧ deleteApplianceB s caller id = (.forbidden, s)))
    ∧ (∀ s : List (Nat × ApplianceA),
      (findApp s id = none →
        putApplianceA s caller id b = (.notFound, s)
        ∧ deleteApplianceA s caller id = (.notFound, s))
      ∧ (∀ a, findApp s id = some a → a.userId ≠ caller →
        putApplianceA s caller id b = (.forbidden, s)
        ∧ deleteApplianceA s caller id = (.forbidden, s)))
    ∧ UpdateResult.statusCode (UpdateResult.notFound : UpdateResult ApplianceB)
        ≠ UpdateResult.statusCode (UpdateResult.forbidden : UpdateResult ApplianceB) := by
  refine ⟨?_, ?_, by decide⟩
  · intro s
    constructor
    · intro h
      exact ⟨by simp [putApplianceB, h], by simp [deleteApplianceB, h]⟩
    · intro a hfind hown
      have hb : (a.userId != caller) = true := bne_iff_ne.mpr hown
      exact ⟨by simp [putApplianceB, hfind, hb], by simp [deleteApplianceB, hfind, hb]⟩
  · intro s
    constructor
    · intro h
      exact ⟨by simp [putApplianceA, h], by simp [deleteApplianceA, h]⟩
    · intro a hfind hown
      have hb : (a.userId != caller) = true := bne_iff_ne.mpr hown
      exact ⟨by simp [putApplianceA, hfind, hb], by simp [deleteApplianceA, hfind, hb]⟩

/-- Witness for C7: missing id and foreign-owner cases on concrete stores. -/
theorem crud_existence_ownership_witness :
    (putApplianceB [] "u2" 1 emptyBody = (.notFound, [])
      ∧ deleteApplianceB [] "u2" 1 = (.notFound, []))
    ∧ (putApplianceB storeB1 "u2" 1 emptyBody = (.forbidden, storeB1)
      ∧ deleteApplianceB storeB1 "u2" 1 = (.forbidden, storeB1)) :=
  ⟨((crud_existence_ownership "u2" 1 emptyBody).1 []).1 rfl,
   ((crud_existence_ownership "u2" 1 emptyBody).1 storeB1).2 fanB rfl (by decide)⟩

/-- Claim C8: the owner itself can move its record to another user through the
update path: a request body carrying a `userId` field is `Object.assign`ed onto
the record, so the persisted owner changes from "u1" to "u2" while the update
reports success (status 200). -/
theorem update_reassigns_owner :
    fanB.userId = "u1"
    ∧ ((putApplianceB storeB1 "u1" 1 reassignBody).1).statusCode = 200
    ∧ (findApp (putApplianceB storeB1 "u1" 1 reassignBody).2 1).map ApplianceB.userId
        = some "u2" :=
  ⟨rfl, rfl, rfl⟩

end EnergyCalc
